import Mathlib

/-!
Shallow embedding of `src/main.py` (ScreenMonitorClient): the frame
comparator `detect_motion` and the periodic tick `check_screen_change`
of the screen-monitoring loop, together with the module constants.

Modelling conventions:
* A decoded image (`cv2.imread` result) is an `RGBImage`: dimensions plus
  a pixel function returning the (B, G, R) channel triple, each channel
  an 8-bit value.  `cv2.imread` returning `None` for an unreadable file is
  an `Option RGBImage` being `none`; a `Sample` (one screenshot file, as
  the loop stores and passes it) is identified with its decode result.
* `cv2.cvtColor(·, COLOR_BGR2GRAY)` uses OpenCV's fixed-point luminance
  formula `(B*1868 + G*9617 + R*4899 + 2^13) >> 14`.
* `cv2.GaussianBlur(·, (5,5), 0)` uses OpenCV's fixed 5-tap kernel for
  sigma 0, `[1,4,6,4,1]/16`, separably in both directions with a final
  rounding shift by 8 bits, and `BORDER_REFLECT_101` borders.
* `cv2.resize` (only reached when the two grayscale shapes differ) is
  modelled as nearest-neighbour resampling to the requested size; every
  property proved about it depends only on the output dimensions.
* `cv2.threshold(diff, 25, 255, THRESH_BINARY)` maps an element to 255
  when it strictly exceeds 25 and to 0 otherwise; `np.count_nonzero`
  counts the nonzero elements.
* The tick `check_screen_change` is a pure step function: its inputs are
  the stored previous sample, the freshly captured current sample, the
  significance threshold (the module constant `PIXEL_DIFF_THRESHOLD` in
  the source), the outcome of the Discord channel fetch and the outcome
  of the `channel.send` call; its output records the new stored sample
  and the tick's observable effects (notification sent, comparison
  performed, files removed, exception escaped uncaught).
-/

/-- A grayscale image: dimensions and a pixel lookup (row, column). -/
structure GrayImg where
  rows : Nat
  cols : Nat
  pix : Nat → Nat → Nat

/-- A decoded colour image as `cv2.imread` yields it: dimensions and a
pixel lookup returning the (B, G, R) triple. -/
structure RGBImage where
  rows : Nat
  cols : Nat
  pix : Nat → Nat → Nat × Nat × Nat

/-- `numpy`'s `.shape` of a single-channel image: (rows, cols). -/
def GrayImg.shape (g : GrayImg) : Nat × Nat := (g.rows, g.cols)

/-- OpenCV's fixed-point BGR-to-luminance formula for one pixel. -/
def bgr2grayVal : Nat × Nat × Nat → Nat
  | (b, g, r) => (b * 1868 + g * 9617 + r * 4899 + 8192) / 16384

/-- `cv2.cvtColor(img, cv2.COLOR_BGR2GRAY)`. -/
def cvtColorBGR2GRAY (img : RGBImage) : GrayImg :=
  { rows := img.rows, cols := img.cols, pix := fun i j => bgr2grayVal (img.pix i j) }

/-- OpenCV `BORDER_REFLECT_101` index folding: index `i` into a
dimension of extent `n` (period `2n - 2`, edge pixel not repeated). -/
def reflect101 (n : Nat) (i : Int) : Nat :=
  if n ≤ 1 then 0
  else
    let m : Int := 2 * (n : Int) - 2
    let j := i.emod m
    if j < (n : Int) then j.toNat else (m - j).toNat

/-- The fixed 5-tap Gaussian weights `[1,4,6,4,1]` (denominator 16)
OpenCV uses for `ksize = 5`, `sigma = 0`. -/
def gw : Nat → Nat
  | 0 => 1
  | 1 => 4
  | 2 => 6
  | 3 => 4
  | _ => 1

/-- `cv2.GaussianBlur(g, (5, 5), 0)`: separable 5x5 kernel
`[1,4,6,4,1]/16` in each direction, computed in fixed point with a final
rounding shift by 8 bits, reflect-101 borders. -/
def gaussianBlur5 (g : GrayImg) : GrayImg :=
  { rows := g.rows, cols := g.cols,
    pix := fun i j =>
      (((List.range 5).foldl (fun acc a =>
          acc + (List.range 5).foldl (fun acc2 b =>
            acc2 + gw a * gw b *
              g.pix (reflect101 g.rows ((i : Int) + (a : Int) - 2))
                    (reflect101 g.cols ((j : Int) + (b : Int) - 2))) 0) 0) + 128) / 256 }

/-- `cv2.resize(g, (cols, rows))`, nearest-neighbour model (the source
call's default is bilinear; the repository only observes the output
dimensions).  Argument order follows OpenCV: (width, height). -/
def cvResize (g : GrayImg) (cols rows : Nat) : GrayImg :=
  { rows := rows, cols := cols,
    pix := fun i j => g.pix (i * g.rows / rows) (j * g.cols / cols) }

/-- Absolute difference of two naturals (saturating subtraction both
ways, as `cv2.absdiff` on `uint8` computes exactly). -/
def natAbsDiff (a b : Nat) : Nat := max a b - min a b

/-- `cv2.absdiff` of two same-shaped grids (shape taken from the first). -/
def absdiff (g1 g2 : GrayImg) : GrayImg :=
  { rows := g1.rows, cols := g1.cols, pix := fun i j => natAbsDiff (g1.pix i j) (g2.pix i j) }

/-- `cv2.threshold(g, thresh, maxval, cv2.THRESH_BINARY)`: an element
becomes `maxval` when strictly above `thresh`, else 0. -/
def thresholdBinary (g : GrayImg) (thresh maxval : Nat) : GrayImg :=
  { rows := g.rows, cols := g.cols, pix := fun i j => if thresh < g.pix i j then maxval else 0 }

/-- `np.count_nonzero` over a grid, scanning rows then columns. -/
def countNonZero (g : GrayImg) : Nat :=
  (List.range g.rows).foldl (fun acc i =>
    acc + ((List.range g.cols).countP (fun j => g.pix i j != 0)) ) 0

/-- The `ValueError("One or both images could not be loaded.")` that
`detect_motion` raises when `cv2.imread` fails. -/
inductive LoadError where
  | imagesNotLoaded
deriving DecidableEq

/-- A sample is one screenshot file, identified with its decode result:
`none` when the file cannot be decoded into a valid image. -/
abbrev Sample := Option RGBImage

/-- `ScreenMonitorClient.detect_motion` (src/main.py lines 46-96),
translated line by line: load both images (raising on a failed load),
convert to grayscale, resize the second to the first's shape when the
shapes differ, blur both, take the absolute difference, binarize at the
fixed per-element threshold 25, count the nonzero elements, and return
whether that count strictly exceeds `pixel_diff_threshold`. -/
def detect_motion (image1? image2? : Sample) (pixel_diff_threshold : Int) :
    Except LoadError Bool :=
  match image1?, image2? with
  | some image1, some image2 =>
    let gray1 := cvtColorBGR2GRAY image1
    let gray2 := cvtColorBGR2GRAY image2
    let gray2 := if gray1.shape ≠ gray2.shape then cvResize gray2 gray1.cols gray1.rows else gray2
    let gray1_blur := gaussianBlur5 gray1
    let gray2_blur := gaussianBlur5 gray2
    let diff := absdiff gray1_blur gray2_blur
    let thresh := thresholdBinary diff 25 255
    let non_zero_count := countNonZero thresh
    Except.ok (decide ((non_zero_count : Int) > pixel_diff_threshold))
  | _, _ => Except.error LoadError.imagesNotLoaded

/-- The second grayscale grid after the shape-alignment step of
`detect_motion`: resized to the first grid's shape iff the shapes differ. -/
def alignedGray2 (image1 image2 : RGBImage) : GrayImg :=
  let gray1 := cvtColorBGR2GRAY image1
  let gray2 := cvtColorBGR2GRAY image2
  if gray1.shape ≠ gray2.shape then cvResize gray2 gray1.cols gray1.rows else gray2

/-- The binarized difference grid `thresh` computed inside
`detect_motion` for two decodable images. -/
def threshGrid (image1 image2 : RGBImage) : GrayImg :=
  thresholdBinary
    (absdiff (gaussianBlur5 (cvtColorBGR2GRAY image1))
             (gaussianBlur5 (alignedGray2 image1 image2))) 25 255

/-- `non_zero_count` of `detect_motion` for two decodable images: the
number of differing elements.  Takes no significance threshold. -/
def diffCount (image1 image2 : RGBImage) : Nat := countNonZero (threshGrid image1 image2)

/-- Module constant `PIXEL_DIFF_THRESHOLD = 25_000` (src/main.py line 15),
the significance threshold the loop passes to `detect_motion`. -/
def PIXEL_DIFF_THRESHOLD : Int := 25000

/-- Module constant `CHECK_INTERVAL = 10` (src/main.py line 14), the tick
interval in seconds. -/
def CHECK_INTERVAL : Nat := 10

/-- Outcome of `self.fetch_channel(DISCORD_CHANNEL_ID)` inside the tick:
either it returned a channel (`ok present` — `present` records whether
the channel is not `None`), or it raised `discord.NotFound`,
`discord.Forbidden` or `discord.HTTPException`. -/
inductive FetchResult where
  | ok (present : Bool)
  | notFound
  | forbidden
  | httpError
deriving DecidableEq

/-- Outcome of the delivery itself — the `open`/`channel.send` block at
src/main.py lines 132-136, reached only with a fetched, present channel:
either the send succeeds, or it raises (for example
`discord.HTTPException` on a transport failure).  Such an exception is
not among the `(ValueError, PermissionError, ConnectionError)` caught at
line 149, so it escapes `check_screen_change` uncaught. -/
inductive SendResult where
  | ok
  | raised
deriving DecidableEq

/-- The observable outcome of one tick of `check_screen_change`: the
`previous_screenshot` field after the tick, whether a notification was
sent, whether `detect_motion` was invoked, which screenshot files the
tick removed, and whether an exception escaped the tick uncaught. -/
structure TickResult where
  previous_screenshot : Option Sample
  notified : Bool
  compared : Bool
  removed_previous : Bool
  removed_current : Bool
  escaped : Bool

/-- One tick of `ScreenMonitorClient.check_screen_change` (src/main.py
lines 98-153), after a successful capture of `current_screenshot`:

* no previous screenshot — store the current one, nothing else happens
  (the seeding tick, lines 107-109);
* otherwise run `detect_motion(previous, current, PIXEL_DIFF_THRESHOLD)`.
  A `ValueError` from a failed load is caught by the handler at lines
  149-153, which removes the current file and leaves `previous_screenshot`
  unchanged.  On motion, the channel fetch's three Discord errors are
  re-raised as `ValueError`/`PermissionError`/`ConnectionError` and a
  `None` channel raises `ValueError` — all caught by the same handler,
  which removes the current file only.  With a present channel the
  screenshot is sent: if `channel.send` (or the `open` feeding it) raises,
  that exception is outside the caught tuple and escapes the method — the
  cleanup at lines 143-148 and the handler at 149-153 are both skipped,
  so nothing is removed and `previous_screenshot` is left unchanged.  On
  a successful send (as on the no-motion path) the previous file is
  removed and `previous_screenshot` is set to the current one
  (lines 143-148).

The threshold is a parameter here; the loop itself always passes the
module constant `PIXEL_DIFF_THRESHOLD`. -/
def check_screen_change (previous_screenshot : Option Sample)
    (current_screenshot : Sample) (pixel_diff_threshold : Int)
    (fetch : FetchResult) (send : SendResult) : TickResult :=
  match previous_screenshot with
  | none =>
    { previous_screenshot := some current_screenshot, notified := false,
      compared := false, removed_previous := false, removed_current := false,
      escaped := false }
  | some prev =>
    match detect_motion prev current_screenshot pixel_diff_threshold with
    | Except.error _ =>
      { previous_screenshot := some prev, notified := false,
        compared := true, removed_previous := false, removed_current := true,
        escaped := false }
    | Except.ok motion_detected =>
      if motion_detected then
        match fetch with
        | FetchResult.ok true =>
          match send with
          | SendResult.ok =>
            { previous_screenshot := some current_screenshot, notified := true,
              compared := true, removed_previous := true, removed_current := false,
              escaped := false }
          | SendResult.raised =>
            { previous_screenshot := some prev, notified := false,
              compared := true, removed_previous := false, removed_current := false,
              escaped := true }
        | _ =>
          { previous_screenshot := some prev, notified := false,
            compared := true, removed_previous := false, removed_current := true,
            escaped := false }
      else
        { previous_screenshot := some current_screenshot, notified := false,
          compared := true, removed_previous := true, removed_current := false,
          escaped := false }

/-- Run the loop for a list of ticks from the freshly initialized client
(`self.previous_screenshot = None`, src/main.py line 33): each list entry
is one tick's captured sample, channel-fetch outcome and send outcome;
the result is `previous_screenshot` after the last tick. -/
def runTicks (pixel_diff_threshold : Int)
    (ticks : List (Sample × FetchResult × SendResult)) : Option Sample :=
  ticks.foldl
    (fun st tick =>
      (check_screen_change st tick.1 pixel_diff_threshold
        tick.2.1 tick.2.2).previous_screenshot)
    none

/-! Concrete test images used by the witness and counterexample theorems. -/

/-- A solid black 3x3 image. -/
def imgBlack3 : RGBImage := { rows := 3, cols := 3, pix := fun _ _ => (0, 0, 0) }

/-- A solid white 3x3 image. -/
def imgWhite3 : RGBImage := { rows := 3, cols := 3, pix := fun _ _ => (255, 255, 255) }

/-- A solid white 2x2 image (for the dimension-mismatch scenario). -/
def imgWhite2 : RGBImage := { rows := 2, cols := 2, pix := fun _ _ => (255, 255, 255) }

/-- A solid mid-gray 100x100 image (the spec's solid-colour scenario). -/
def solidGray100 : RGBImage :=
  { rows := 100, cols := 100, pix := fun _ _ => (128, 128, 128) }

/-! Helper lemmas shared by the claim theorems. -/

/-- `detect_motion` on two decodable images factors into the
threshold-free differing-element count followed by the one strict
comparison against the caller's threshold. -/
theorem detect_motion_factored (a b : RGBImage) (t : Int) :
    detect_motion (some a) (some b) t = Except.ok (decide ((diffCount a b : Int) > t)) := rfl

/-- A grid whose elements are all zero has a zero nonzero-count. -/
theorem countNonZero_of_all_zero (g : GrayImg) (h : ∀ i j, g.pix i j = 0) :
    countNonZero g = 0 := by
  have hrow : ∀ i, (List.range g.cols).countP (fun j => g.pix i j != 0) = 0 := by
    intro i
    refine List.countP_eq_zero.mpr ?_
    intro j _
    simp [h i j]
  have hfold : ∀ (l : List Nat) (acc : Nat),
      l.foldl (fun acc i => acc + (List.range g.cols).countP (fun j => g.pix i j != 0)) acc
        = acc := by
    intro l
    induction l with
    | nil => intro acc; rfl
    | cons x xs ih =>
      intro acc
      rw [List.foldl_cons, hrow x, Nat.add_zero]
      exact ih acc
  exact hfold _ _

/-- Every tick leaves `previous_screenshot` holding a sample: the seeding
branch stores the current sample, and every other branch either keeps the
previous sample or replaces it with the current one. -/
theorem check_previous_isSome (st : Option Sample) (curr : Sample) (t : Int)
    (f : FetchResult) (s : SendResult) :
    (check_screen_change st curr t f s).previous_screenshot.isSome := by
  cases st with
  | none => rfl
  | some prev =>
    simp only [check_screen_change]
    cases detect_motion prev curr t with
    | error e => rfl
    | ok motion =>
      cases motion with
      | false => rfl
      | true =>
        cases f with
        | ok present => cases present with
          | false => rfl
          | true => cases s <;> rfl
        | notFound => rfl
        | forbidden => rfl
        | httpError => rfl

/-- Folding ticks over a stored state keeps the state stored. -/
theorem foldl_previous_isSome (t : Int) (l : List (Sample × FetchResult × SendResult))
    (st : Option Sample) (h : st.isSome) :
    (l.foldl
      (fun s tick =>
        (check_screen_change s tick.1 t tick.2.1 tick.2.2).previous_screenshot)
      st).isSome := by
  induction l generalizing st with
  | nil => exact h
  | cons tk rest ih => exact ih _ (check_previous_isSome _ _ _ _ _)

/-! The claims. -/

/-- C1: the comparator's verdict is strict — `detect_motion a b t` returns
`true` exactly when the differing-element count strictly exceeds `t`, and
`false` exactly when the count is at most `t` (so a count equal to `t`
yields `false`, and a count equal to `t + 1` yields `true`). -/
theorem detect_motion_strict_threshold (a b : RGBImage) (t : Int) :
    (detect_motion (some a) (some b) t = Except.ok true ↔ (diffCount a b : Int) > t) ∧
    (detect_motion (some a) (some b) t = Except.ok false ↔ (diffCount a b : Int) ≤ t) := by
  rw [detect_motion_factored]
  constructor
  · simp [decide_eq_true_iff]
  · simp [Int.not_lt]

/-- C2: a tick that starts with no previous screenshot stores the captured
sample as the new previous sample, sends no notification and performs no
comparison, whatever the capture's content, threshold, fetch outcome or
send outcome. -/
theorem seeding_tick (curr : Sample) (t : Int) (f : FetchResult) (s : SendResult) :
    check_screen_change none curr t f s =
      { previous_screenshot := some curr, notified := false, compared := false,
        removed_previous := false, removed_current := false, escaped := false } := rfl

/-- C3: the code contradicts the claim at this input.  With motion
detected (black versus white 3x3 images, nine differing elements,
threshold 5) and a successfully fetched, present channel, a raising
`channel.send` ends the tick with the previous sample kept — but the
current screenshot is NOT removed: the exception is outside the caught
`(ValueError, PermissionError, ConnectionError)` tuple and escapes the
method, skipping the cleanup the claim requires. -/
theorem delivery_failure_leaks_current :
    detect_motion (some imgBlack3) (some imgWhite3) 5 = Except.ok true ∧
    (check_screen_change (some (some imgBlack3)) (some imgWhite3) 5
        (FetchResult.ok true) SendResult.raised).previous_screenshot
      = some (some imgBlack3) ∧
    (check_screen_change (some (some imgBlack3)) (some imgWhite3) 5
        (FetchResult.ok true) SendResult.raised).removed_current = false ∧
    (check_screen_change (some (some imgBlack3)) (some imgWhite3) 5
        (FetchResult.ok true) SendResult.raised).escaped = true :=
  ⟨rfl, rfl, rfl, rfl⟩

/-- Counterexample to C4 as stated: with an undecodable *retained* sample
the comparator raises its load failure, yet the tick leaves
`previous_screenshot` holding that same undecodable sample — it does not
roll back to `none`, so the next tick does not re-seed. -/
theorem load_error_no_reseed_cex :
    detect_motion (none : Sample) (some imgWhite3) PIXEL_DIFF_THRESHOLD
      = Except.error LoadError.imagesNotLoaded ∧
    (check_screen_change (some (none : Sample)) (some imgWhite3) PIXEL_DIFF_THRESHOLD
        FetchResult.notFound SendResult.ok).previous_screenshot = some (none : Sample) ∧
    (check_screen_change (some (none : Sample)) (some imgWhite3) PIXEL_DIFF_THRESHOLD
        FetchResult.notFound SendResult.ok).previous_screenshot ≠ none :=
  ⟨rfl, rfl, Option.some_ne_none _⟩

/-- C4 (amended): whenever the comparator raises its load failure —
whichever of the two samples is undecodable — the tick discards only the
transient current sample and keeps the retained sample unchanged; the
stored state never rolls back to `none`. -/
theorem load_error_keeps_previous (prev curr : Sample) (t : Int) (f : FetchResult)
    (s : SendResult) (e : LoadError) (h : detect_motion prev curr t = Except.error e) :
    check_screen_change (some prev) curr t f s =
      { previous_screenshot := some prev, notified := false, compared := true,
        removed_previous := false, removed_current := true, escaped := false } := by
  simp only [check_screen_change, h]

/-- Witness for the amended C4: an undecodable retained sample against a
decodable current one. -/
theorem load_error_keeps_previous_witness :
    check_screen_change (some (none : Sample)) (some imgWhite3) 5 FetchResult.httpError
        SendResult.ok =
      { previous_screenshot := some (none : Sample), notified := false, compared := true,
        removed_previous := false, removed_current := true, escaped := false } :=
  load_error_keeps_previous none (some imgWhite3) 5 FetchResult.httpError
    SendResult.ok LoadError.imagesNotLoaded rfl

/-- C5: the comparator raises its load failure exactly when at least one
input cannot be decoded, and returns a boolean result exactly when both
inputs decode. -/
theorem detect_motion_load_failure_iff (a b : Sample) (t : Int) :
    ((∃ e, detect_motion a b t = Except.error e) ↔ a = none ∨ b = none) ∧
    ((∃ r : Bool, detect_motion a b t = Except.ok r) ↔ a ≠ none ∧ b ≠ none) := by
  cases a <;> cases b <;> simp [detect_motion] <;>
    exact ⟨LoadError.imagesNotLoaded, trivial⟩

/-- C6: when the two luminance grids differ in dimensions the comparator
does not fail: it resamples the second grid to the first grid's
dimensions and still returns a boolean verdict. -/
theorem dimension_mismatch_tolerated (a b : RGBImage) (t : Int)
    (h : (cvtColorBGR2GRAY a).shape ≠ (cvtColorBGR2GRAY b).shape) :
    alignedGray2 a b
      = cvResize (cvtColorBGR2GRAY b) (cvtColorBGR2GRAY a).cols (cvtColorBGR2GRAY a).rows ∧
    (alignedGray2 a b).shape = (cvtColorBGR2GRAY a).shape ∧
    detect_motion (some a) (some b) t = Except.ok (decide ((diffCount a b : Int) > t)) := by
  refine ⟨?_, ?_, detect_motion_factored a b t⟩
  · simp only [alignedGray2]
    rw [if_pos h]
  · simp only [alignedGray2]
    rw [if_pos h]
    simp [cvResize, GrayImg.shape]

/-- Witness for C6: a 3x3 image against a 2x2 image. -/
theorem dimension_mismatch_tolerated_witness :
    (cvtColorBGR2GRAY imgBlack3).shape ≠ (cvtColorBGR2GRAY imgWhite2).shape ∧
    (alignedGray2 imgBlack3 imgWhite2
        = cvResize (cvtColorBGR2GRAY imgWhite2) (cvtColorBGR2GRAY imgBlack3).cols
            (cvtColorBGR2GRAY imgBlack3).rows ∧
      (alignedGray2 imgBlack3 imgWhite2).shape = (cvtColorBGR2GRAY imgBlack3).shape ∧
      detect_motion (some imgBlack3) (some imgWhite2) 5
        = Except.ok (decide ((diffCount imgBlack3 imgWhite2 : Int) > 5))) := by
  have hne : (cvtColorBGR2GRAY imgBlack3).shape ≠ (cvtColorBGR2GRAY imgWhite2).shape := by
    simp [cvtColorBGR2GRAY, GrayImg.shape, imgBlack3, imgWhite2]
  exact ⟨hne, dimension_mismatch_tolerated imgBlack3 imgWhite2 5 hne⟩

/-- C7: an element of the binarized difference grid is nonzero exactly
when the per-element absolute difference of the two blurred luminance
grids strictly exceeds the fixed per-element threshold 25, and the
caller's significance threshold enters only the final strict comparison
of the count — the per-element policy is identical on every call. -/
theorem per_element_threshold_static (a b : RGBImage) (t : Int) (i j : Nat) :
    ((threshGrid a b).pix i j ≠ 0 ↔
      25 < natAbsDiff ((gaussianBlur5 (cvtColorBGR2GRAY a)).pix i j)
                      ((gaussianBlur5 (alignedGray2 a b)).pix i j)) ∧
    detect_motion (some a) (some b) t = Except.ok (decide ((diffCount a b : Int) > t)) := by
  refine ⟨?_, detect_motion_factored a b t⟩
  simp only [threshGrid, thresholdBinary, absdiff]
  split <;> simp_all

/-- C8: the monitor-state invariant — the stored sample is `none` only
before the first completed tick; every completed tick, whatever its
outcome, leaves a stored sample, and hence any nonempty run of ticks ends
with a stored sample. -/
theorem monitor_state_invariant (t : Int) :
    runTicks t [] = none ∧
    (∀ st curr f s, (check_screen_change st curr t f s).previous_screenshot ≠ none) ∧
    (∀ ticks, ticks ≠ [] → runTicks t ticks ≠ none) := by
  refine ⟨rfl, ?_, ?_⟩
  · intro st curr f s
    exact Option.isSome_iff_ne_none.mp (check_previous_isSome st curr t f s)
  · intro ticks hne
    match ticks with
    | [] => exact absurd rfl hne
    | tk :: rest =>
      refine Option.isSome_iff_ne_none.mp ?_
      rw [runTicks, List.foldl_cons]
      exact foldl_previous_isSome t rest _ (check_previous_isSome _ _ _ _ _)

/-- C9: two identical decodable images produce a differing-element count
of 0, so for any non-negative significance threshold the comparator
returns `false`. -/
theorem identical_images_no_motion (a : RGBImage) (t : Int) (ht : 0 ≤ t) :
    diffCount a a = 0 ∧ detect_motion (some a) (some a) t = Except.ok false := by
  have haligned : alignedGray2 a a = cvtColorBGR2GRAY a := by
    simp [alignedGray2]
  have hcount : diffCount a a = 0 := by
    rw [diffCount]
    refine countNonZero_of_all_zero _ ?_
    intro i j
    rw [threshGrid, haligned]
    simp [thresholdBinary, absdiff, natAbsDiff]
  refine ⟨hcount, ?_⟩
  rw [detect_motion_factored, hcount]
  simp only [Nat.cast_zero]
  rw [decide_eq_false (by omega : ¬ ((0 : Int) > t))]

/-- Witness for C9: a solid-gray 100x100 image against itself at the
loop's configured threshold 25000. -/
theorem identical_images_no_motion_witness :
    (0 : Int) ≤ PIXEL_DIFF_THRESHOLD ∧
    (diffCount solidGray100 solidGray100 = 0 ∧
      detect_motion (some solidGray100) (some solidGray100) PIXEL_DIFF_THRESHOLD
        = Except.ok false) :=
  ⟨by decide, identical_images_no_motion solidGray100 PIXEL_DIFF_THRESHOLD (by decide)⟩

/-- C10: the verdict is antitone in the significance threshold — if
motion is detected at a threshold `tBig`, it is also detected at any
threshold `t ≤ tBig`, because the differing-element count is determined
by the images alone. -/
theorem detect_motion_threshold_antitone (a b : RGBImage) (t tBig : Int)
    (hle : t ≤ tBig) (h : detect_motion (some a) (some b) tBig = Except.ok true) :
    detect_motion (some a) (some b) t = Except.ok true := by
  rw [detect_motion_factored] at h ⊢
  have hBig : (diffCount a b : Int) > tBig := of_decide_eq_true (Except.ok.inj h)
  have ht : (diffCount a b : Int) > t := lt_of_le_of_lt hle hBig
  rw [decide_eq_true ht]

/-- Witness for C10: black versus white 3x3 images detected at threshold
5, hence also at threshold 3. -/
theorem detect_motion_threshold_antitone_witness :
    detect_motion (some imgBlack3) (some imgWhite3) 3 = Except.ok true :=
  detect_motion_threshold_antitone imgBlack3 imgWhite3 3 5 (by decide) rfl
